import Mathlib

set_option maxRecDepth 8000

/-!
# Laundromat acquisition dashboard — verification of the scoring/ranking pipeline

Shallow embedding of the core pipeline of `src/app.py`:
geocode lookup → keyword extraction → weighted score → financial ratio →
sort/filter.  Python floats are modelled as rationals (`ℚ`), Python dicts as
structures, and fallible steps (exceptions) as `Except String`.
-/

namespace Laundromat

/-- Python `round(x, n)` rounds half to even.  `pyRoundInt x` is the integer
Python's `round(x)` returns for a rational `x`. -/
def pyRoundInt (x : ℚ) : ℤ :=
  if x - ⌊x⌋ < 1/2 then ⌊x⌋
  else if 1/2 < x - ⌊x⌋ then ⌊x⌋ + 1
  else if Even ⌊x⌋ then ⌊x⌋ else ⌊x⌋ + 1

/-- Python `round(x, 2)`: round half to even at two decimal places. -/
def round2 (x : ℚ) : ℚ := (pyRoundInt (x * 100) : ℚ) / 100

/-- A raw scraped listing record: the keys of each dict in `MOCK_SCRAPED_DATA`
(`Title`, `Location`, `Price`, `CashFlow`, `Description`, `Lat`, `Long`). -/
structure RawListing where
  Title : String
  Location : String
  Price : String
  CashFlow : String
  Description : String
  Lat : ℚ
  Long : ℚ
  deriving DecidableEq, Repr

/-- Result dict of `automated_geocoding`: `{'Neighborhood': …, 'MatchScore': …}`. -/
structure GeoData where
  Neighborhood : String
  MatchScore : ℚ
  deriving DecidableEq, Repr

/-- Result dict of `automated_nlp_analysis`: the four boolean signals. -/
structure NlpData where
  RealEstateIncluded : Bool
  SellerMotivation : Bool
  OldEquipment : Bool
  HighCapacity : Bool
  deriving DecidableEq, Repr

/-- The fields of the merged dict `{**listing, **geo_data, **nlp_data}` that
`calculate_opportunity_score` actually reads. -/
structure EnrichedListing where
  Neighborhood : String
  MatchScore : ℚ
  RealEstateIncluded : Bool
  SellerMotivation : Bool
  OldEquipment : Bool
  HighCapacity : Bool
  deriving DecidableEq, Repr

/-- The fully processed listing: `{**listing, **geo_data, **nlp_data}` plus the
derived `OpportunityScore` and `CapRate (%)` fields. -/
structure ProcessedListing where
  Title : String
  Location : String
  Price : String
  CashFlow : String
  Description : String
  Lat : ℚ
  Long : ℚ
  Neighborhood : String
  MatchScore : ℚ
  RealEstateIncluded : Bool
  SellerMotivation : Bool
  OldEquipment : Bool
  HighCapacity : Bool
  OpportunityScore : ℚ
  CapRate : ℚ
  deriving DecidableEq, Repr

/-- `TARGET_NEIGHBORHOODS = ['Logan Square', 'Avondale', 'Hermosa']`. -/
def TARGET_NEIGHBORHOODS : List String := ["Logan Square", "Avondale", "Hermosa"]

/-- The `WEIGHTS` configuration dict. -/
structure Weights where
  RealEstateIncluded : ℚ
  LocationMatch : ℚ
  SellerMotivation : ℚ
  HighCapacity : ℚ
  deriving DecidableEq, Repr

/-- `WEIGHTS = {'RealEstateIncluded': 40, 'LocationMatch': 30,
'SellerMotivation': 20, 'HighCapacity': 10}`. -/
def WEIGHTS : Weights :=
  { RealEstateIncluded := 40
  , LocationMatch := 30
  , SellerMotivation := 20
  , HighCapacity := 10 }

/-- Body of `automated_geocoding(location_text, lat, long)`: the if/elif chain
of inclusive bounding-box tests.  `location_text` is declared by the source but
never read by the body; the single call site supplies a coordinate in that
position, so it is typed `ℚ` here. -/
def automated_geocoding (location_text lat long : ℚ) : GeoData :=
  if 41.92 ≤ lat ∧ lat ≤ 41.94 ∧ -87.73 ≤ long ∧ long ≤ -87.70 then
    { Neighborhood := "Logan Square", MatchScore := 1.0 }
  else if 41.92 ≤ lat ∧ lat ≤ 41.93 ∧ -87.74 ≤ long ∧ long ≤ -87.72 then
    { Neighborhood := "Avondale", MatchScore := 0.9 }
  else if 41.90 ≤ lat ∧ lat ≤ 41.92 ∧ -87.75 ≤ long ∧ long ≤ -87.73 then
    { Neighborhood := "Hermosa", MatchScore := 0.85 }
  else
    { Neighborhood := "Outside Target", MatchScore := 0.0 }

/-- `pat` occurs as a contiguous substring of `s` (the meaning of
`re.search` on a regex that is an alternation of literal phrases). -/
def strContains (s pat : String) : Bool := decide (pat.data <:+: s.data)

/-- Python `description.lower()`: character-wise lower-casing (every string in
this program is ASCII, where Python and Lean lower-casing agree). -/
def strLower (s : String) : String := ⟨s.data.map Char.toLower⟩

/-- `automated_nlp_analysis(description)`: each signal is a `re.search` of an
alternation of fixed literal phrases against `description.lower()`. -/
def automated_nlp_analysis (description : String) : NlpData :=
  let re_included :=
    strContains (strLower description) "real estate included"
    || strContains (strLower description) "building included"
    || strContains (strLower description) "property included"
  let motivated :=
    strContains (strLower description) "owner retiring"
    || strContains (strLower description) "needs quick sale"
    || strContains (strLower description) "moving out of state"
    || strContains (strLower description) "must sell"
    || strContains (strLower description) "quick exit"
  let old_equipment :=
    strContains (strLower description) "old equipment"
    || strContains (strLower description) "older machines"
    || strContains (strLower description) "ready for upgrade"
    || strContains (strLower description) "inefficient machines"
  let high_capacity :=
    strContains (strLower description) "high-capacity"
    || strContains (strLower description) "modern equipment"
    || strContains (strLower description) "fully updated"
  { RealEstateIncluded := re_included
  , SellerMotivation := motivated
  , OldEquipment := old_equipment
  , HighCapacity := high_capacity }

/-- `calculate_opportunity_score(listing)`: sequential weighted additions,
then `round(score, 2)`. -/
def calculate_opportunity_score (listing : EnrichedListing) : ℚ :=
  let score : ℚ := 0
  let score := if listing.Neighborhood ∈ TARGET_NEIGHBORHOODS
    then score + WEIGHTS.LocationMatch * listing.MatchScore else score
  let score := if listing.RealEstateIncluded
    then score + WEIGHTS.RealEstateIncluded else score
  let score := if listing.SellerMotivation
    then score + WEIGHTS.SellerMotivation else score
  let score := if listing.OldEquipment || listing.HighCapacity
    then score + WEIGHTS.HighCapacity else score
  round2 score

/-- `s.replace('$', '').replace(',', '')`: for a single-character pattern and
an empty replacement, Python `str.replace` deletes every occurrence of the
character, so the two chained calls delete every `'$'` and every `','`. -/
def stripMoney (s : String) : String :=
  ⟨(s.data.filter (fun c => c != '$')).filter (fun c => c != ',')⟩

/-- Digit list to natural number, most significant digit first. -/
def digitsToNat (l : List Char) : ℕ :=
  l.foldl (fun n c => 10 * n + (c.toNat - 48)) 0

/-- Strip leading and trailing whitespace (Python `float()` ignores
surrounding whitespace). -/
def trimWs (cs : List Char) : List Char :=
  ((cs.dropWhile Char.isWhitespace).reverse.dropWhile Char.isWhitespace).reverse

/-- The syntactic components of a Python float literal: sign, the digits of
the integer and fractional parts run together, the number of fractional
digits, and the signed decimal exponent. -/
structure FloatParts where
  neg : Bool
  mantDigits : ℕ
  fracLen : ℕ
  exp : ℤ
  deriving DecidableEq, Repr

/-- Syntactic phase of Python `float()` on a string: optional surrounding
whitespace, an optional sign, decimal digits with an optional fractional part,
and an optional decimal exponent.  Returns `none` exactly when `float()`
raises `ValueError`.  (Non-finite literals such as `inf`/`nan` and underscore
digit grouping lie outside the rational model; no input of this program uses
them.) -/
def pyFloatParse (s : String) : Option FloatParts :=
  let cs := trimWs s.data
  let (neg, cs) : Bool × List Char :=
    match cs with
    | '-' :: rest => (true, rest)
    | '+' :: rest => (false, rest)
    | _ => (false, cs)
  let intPart := cs.takeWhile Char.isDigit
  let cs := cs.dropWhile Char.isDigit
  let (fracPart, cs) : List Char × List Char :=
    match cs with
    | '.' :: rest => (rest.takeWhile Char.isDigit, rest.dropWhile Char.isDigit)
    | _ => ([], cs)
  if intPart.isEmpty && fracPart.isEmpty then none
  else
    let mant := digitsToNat (intPart ++ fracPart)
    match cs with
    | [] => some { neg := neg, mantDigits := mant, fracLen := fracPart.length, exp := 0 }
    | e :: rest =>
      if e = 'e' || e = 'E' then
        let (eneg, rest) : Bool × List Char :=
          match rest with
          | '-' :: r => (true, r)
          | '+' :: r => (false, r)
          | _ => (false, rest)
        let eDigits := rest.takeWhile Char.isDigit
        let rest := rest.dropWhile Char.isDigit
        if eDigits.isEmpty || !rest.isEmpty then none
        else
          some { neg := neg, mantDigits := mant, fracLen := fracPart.length
               , exp := (if eneg then -1 else 1) * (digitsToNat eDigits : ℤ) }
      else none

/-- Numeric value of a parsed float literal. -/
def partsValue (p : FloatParts) : ℚ :=
  (if p.neg then -1 else 1) * (p.mantDigits : ℚ) / (10 : ℚ) ^ p.fracLen * (10 : ℚ) ^ p.exp

/-- Model of Python `float()`: parse, then evaluate. -/
def pyFloat (s : String) : Option ℚ :=
  (pyFloatParse s).map partsValue

/-- The `try`/`except ValueError` block of `run_acquisition_engine`
(the financial step): parse `CashFlow`, then `Price`, compute
`round((cf / price) * 100, 2)`.  A `ValueError` from either `float()` call is
caught and yields cap rate `0.0`; a zero parsed price makes `cf / price` raise
`ZeroDivisionError`, which the `except ValueError` clause does not catch. -/
def financial_caprate (price cashFlow : String) : Except String ℚ :=
  match pyFloat (stripMoney cashFlow) with
  | none => .ok 0.0
  | some cf =>
    match pyFloat (stripMoney price) with
    | none => .ok 0.0
    | some p =>
      if p = 0 then .error "ZeroDivisionError"
      else .ok (round2 (cf / p * 100))

/-- The loop body of `run_acquisition_engine` from Step 2 onward, given the
result of the geocoding step: NLP extraction, merge, opportunity score, and
the financial step; yields the processed listing appended to `processed_data`,
or propagates an uncaught exception. -/
def enrich (listing : RawListing) (geo : GeoData) : Except String ProcessedListing :=
  let nlp := automated_nlp_analysis listing.Description
  let score := calculate_opportunity_score
    { Neighborhood := geo.Neighborhood
    , MatchScore := geo.MatchScore
    , RealEstateIncluded := nlp.RealEstateIncluded
    , SellerMotivation := nlp.SellerMotivation
    , OldEquipment := nlp.OldEquipment
    , HighCapacity := nlp.HighCapacity }
  (financial_caprate listing.Price listing.CashFlow).map (fun cap =>
    { Title := listing.Title
    , Location := listing.Location
    , Price := listing.Price
    , CashFlow := listing.CashFlow
    , Description := listing.Description
    , Lat := listing.Lat
    , Long := listing.Long
    , Neighborhood := geo.Neighborhood
    , MatchScore := geo.MatchScore
    , RealEstateIncluded := nlp.RealEstateIncluded
    , SellerMotivation := nlp.SellerMotivation
    , OldEquipment := nlp.OldEquipment
    , HighCapacity := nlp.HighCapacity
    , OpportunityScore := score
    , CapRate := cap })

/-- The parameter list declared by `def automated_geocoding(location_text, lat,
long)`: three required positional parameters. -/
def automated_geocoding_params : List String := ["location_text", "lat", "long"]

/-- The positional arguments supplied at the call site in
`run_acquisition_engine`: `automated_geocoding(listing['Lat'], listing['Long'])`
— two arguments. -/
def geocoding_call_args (listing : RawListing) : List ℚ := [listing.Lat, listing.Long]

/-- Python positional-call semantics for the geocoding call in the pipeline:
binding succeeds only when the number of supplied positional arguments equals
the number of declared required parameters (argument `i` binds parameter `i`);
otherwise the call raises `TypeError`. -/
def callGeocoding (listing : RawListing) : Except String GeoData :=
  let args := geocoding_call_args listing
  if args.length = automated_geocoding_params.length then
    .ok (automated_geocoding (args.getD 0 0) (args.getD 1 0) (args.getD 2 0))
  else
    .error "TypeError"

/-- One iteration of the `for listing in data` loop: the geocoding call,
then the rest of the loop body. -/
def process_listing (listing : RawListing) : Except String ProcessedListing :=
  (callGeocoding listing).bind (enrich listing)

/-- The `for` loop of `run_acquisition_engine`: process listings in order,
accumulating `processed_data`; an uncaught exception aborts the run. -/
def process_all : List RawListing → Except String (List ProcessedListing)
  | [] => .ok []
  | l :: rest =>
    (process_listing l).bind (fun r => (process_all rest).map (fun rs => r :: rs))

/-- A row `a` may stay in front of a row `b` under
`sort_values(by=['OpportunityScore', 'CapRate (%)'], ascending=[False, False])`:
`a` has a strictly higher score, or equal score and a cap rate at least as
high. -/
def rankKeep (a b : ProcessedListing) : Prop :=
  b.OpportunityScore < a.OpportunityScore ∨
    (a.OpportunityScore = b.OpportunityScore ∧ b.CapRate ≤ a.CapRate)

instance (a b : ProcessedListing) : Decidable (rankKeep a b) := by
  unfold rankKeep; infer_instance

/-- Stable insertion into a list sorted by `rankKeep`. -/
def rankInsert (x : ProcessedListing) : List ProcessedListing → List ProcessedListing
  | [] => [x]
  | y :: ys => if rankKeep x y then x :: y :: ys else y :: rankInsert x ys

/-- The pandas multi-column `sort_values` of line 108: a stable sort by
(`OpportunityScore` descending, `CapRate (%)` descending).  Pandas multi-key
sorts are stable (`numpy.lexsort`), modelled here as stable insertion sort. -/
def sortRanked : List ProcessedListing → List ProcessedListing
  | [] => []
  | x :: xs => rankInsert x (sortRanked xs)

/-- `run_acquisition_engine(data)`: the loop over `data`, then the final
sort of the assembled records. -/
def run_acquisition_engine (data : List RawListing) : Except String (List ProcessedListing) :=
  (process_all data).map sortRanked

/-- The sidebar neighborhood filter:
`df_targets[df_targets['Neighborhood'].isin(selected_hoods)]`. -/
def filter_by_hoods (hoods : List String) (rows : List ProcessedListing) :
    List ProcessedListing :=
  rows.filter (fun r => decide (r.Neighborhood ∈ hoods))

/-- The sidebar minimum-score filter:
`df_filtered[df_filtered['OpportunityScore'] >= min_score]`. -/
def filter_by_min_score (minScore : ℚ) (rows : List ProcessedListing) :
    List ProcessedListing :=
  rows.filter (fun r => decide (minScore ≤ r.OpportunityScore))

/-- First entry of `MOCK_SCRAPED_DATA` — the end-to-end example listing. -/
def example_listing : RawListing :=
  { Title := "Profitable Laundromat, Owner Retiring"
  , Location := "2800 N. Milwaukee Ave, Chicago, IL"
  , Price := "$750,000"
  , CashFlow := "$150,000"
  , Description := "High volume store with old equipment. Real estate included. Owner retiring after 35 years. Great for a new concept build-out. 3,000 sq ft."
  , Lat := 41.933
  , Long := -87.712 }

/-- A bounding-box rule of the spec's Location Classifier: a fixed box and a
fixed result. -/
structure GeoRule where
  latMin : ℚ
  latMax : ℚ
  longMin : ℚ
  longMax : ℚ
  Neighborhood : String
  MatchScore : ℚ
  deriving DecidableEq, Repr

/-- Spec-side rule table (§4.1): the ORDERED list of bounding-box rules, each
with a fixed box and a fixed match score, written from the spec's description
of the classifier. -/
def spec_geo_rules : List GeoRule :=
  [ { latMin := 41.92, latMax := 41.94, longMin := -87.73, longMax := -87.70
    , Neighborhood := "Logan Square", MatchScore := 1.0 }
  , { latMin := 41.92, latMax := 41.93, longMin := -87.74, longMax := -87.72
    , Neighborhood := "Avondale", MatchScore := 0.9 }
  , { latMin := 41.90, latMax := 41.92, longMin := -87.75, longMax := -87.73
    , Neighborhood := "Hermosa", MatchScore := 0.85 } ]

/-- A rule's box contains the point, boundaries inclusive on both ends. -/
def ruleContains (r : GeoRule) (lat long : ℚ) : Bool :=
  decide (r.latMin ≤ lat ∧ lat ≤ r.latMax ∧ r.longMin ≤ long ∧ long ≤ r.longMax)

/-- Spec-side classifier (§4.1): return the result of the FIRST rule whose box
contains the point; if no rule matches, return (Outside Target, 0.0). -/
def spec_classify (lat long : ℚ) : GeoData :=
  match spec_geo_rules.find? (fun r => ruleContains r lat long) with
  | some r => { Neighborhood := r.Neighborhood, MatchScore := r.MatchScore }
  | none => { Neighborhood := "Outside Target", MatchScore := 0.0 }

/-- The real-estate pattern group of the Text Feature Extractor. -/
def real_estate_patterns : List String :=
  ["real estate included", "building included", "property included"]

/-- The seller-motivation pattern group. -/
def motivation_patterns : List String :=
  ["owner retiring", "needs quick sale", "moving out of state", "must sell", "quick exit"]

/-- The old-equipment pattern group. -/
def old_equipment_patterns : List String :=
  ["old equipment", "older machines", "ready for upgrade", "inefficient machines"]

/-- The high-capacity pattern group. -/
def high_capacity_patterns : List String :=
  ["high-capacity", "modern equipment", "fully updated"]

/-- The first three weighted contributions of `calculate_opportunity_score`
(location, real estate, motivation) — everything except the capacity term. -/
def score_before_capacity (e : EnrichedListing) : ℚ :=
  (if e.Neighborhood ∈ TARGET_NEIGHBORHOODS then WEIGHTS.LocationMatch * e.MatchScore else 0)
  + (if e.RealEstateIncluded then WEIGHTS.RealEstateIncluded else 0)
  + (if e.SellerMotivation then WEIGHTS.SellerMotivation else 0)

/-- The three non-location contributions of `calculate_opportunity_score`
(real estate, motivation, capacity). -/
def rest_terms (e : EnrichedListing) : ℚ :=
  (if e.RealEstateIncluded then WEIGHTS.RealEstateIncluded else 0)
  + (if e.SellerMotivation then WEIGHTS.SellerMotivation else 0)
  + (if e.OldEquipment || e.HighCapacity then WEIGHTS.HighCapacity else 0)

/-- The enriched fields the end-to-end example produces: Logan Square with
match score 1, real estate included, seller motivated, old equipment. -/
def example_enriched : EnrichedListing :=
  { Neighborhood := "Logan Square", MatchScore := 1
  , RealEstateIncluded := true, SellerMotivation := true
  , OldEquipment := true, HighCapacity := false }

/-- Geocoding result used as a fixture for listings outside every box. -/
def outside_geo : GeoData := { Neighborhood := "Outside Target", MatchScore := 0.0 }

/-- A listing whose price text is malformed (non-numeric after stripping). -/
def na_listing : RawListing :=
  { Title := "Malformed price", Location := "L", Price := "N/A"
  , CashFlow := "$150,000", Description := "No signals here."
  , Lat := 0, Long := 0 }

/-- A listing whose price text parses to exactly zero. -/
def zero_price_listing : RawListing :=
  { Title := "Zero price", Location := "L", Price := "$0"
  , CashFlow := "$150,000", Description := "No signals here."
  , Lat := 0, Long := 0 }

/-- A description containing a phrase from each of the four pattern groups. -/
def all_groups_description : String :=
  "Real estate included. Owner retiring. Old equipment, but fully updated."

/-- A description containing no phrase from any pattern group. -/
def no_groups_description : String := "A quiet little store."

/-- An enriched record whose neighborhood is outside the target set but whose
match score is positive. -/
def outside_enriched : EnrichedListing :=
  { Neighborhood := "Wicker Park", MatchScore := 0.9
  , RealEstateIncluded := true, SellerMotivation := false
  , OldEquipment := false, HighCapacity := false }

/-- An enriched record whose neighborhood is in the target set. -/
def target_enriched : EnrichedListing :=
  { Neighborhood := "Avondale", MatchScore := 0.9
  , RealEstateIncluded := false, SellerMotivation := true
  , OldEquipment := false, HighCapacity := true }

/-! ## Helper lemmas -/

theorem pyRoundInt_ge (x : ℚ) (B : ℤ) (h : (B : ℚ) ≤ x) : B ≤ pyRoundInt x := by
  have hf : B ≤ ⌊x⌋ := Int.le_floor.mpr h
  unfold pyRoundInt
  split_ifs <;> omega

theorem pyRoundInt_le (x : ℚ) (B : ℤ) (h : x ≤ (B : ℚ)) : pyRoundInt x ≤ B := by
  unfold pyRoundInt
  split_ifs with h1 h2 h3
  · have h4 : (⌊x⌋ : ℚ) ≤ B := le_trans (Int.floor_le x) h
    exact_mod_cast h4
  · have h4 : (⌊x⌋ : ℚ) + 1/2 ≤ x := by push_neg at h1; linarith
    have h5 : (⌊x⌋ : ℚ) < B := by linarith
    have h6 : ⌊x⌋ < B := by exact_mod_cast h5
    omega
  · have h4 : (⌊x⌋ : ℚ) ≤ B := le_trans (Int.floor_le x) h
    exact_mod_cast h4
  · have h4 : (⌊x⌋ : ℚ) + 1/2 ≤ x := by push_neg at h1; linarith
    have h5 : (⌊x⌋ : ℚ) < B := by linarith
    have h6 : ⌊x⌋ < B := by exact_mod_cast h5
    omega

theorem round2_bound_0_100 (q : ℚ) (h0 : 0 ≤ q) (h1 : q ≤ 100) :
    0 ≤ round2 q ∧ round2 q ≤ 100 := by
  have ha : (0 : ℤ) ≤ pyRoundInt (q * 100) := by
    apply pyRoundInt_ge
    push_cast
    linarith
  have hb : pyRoundInt (q * 100) ≤ (10000 : ℤ) := by
    apply pyRoundInt_le
    push_cast
    linarith
  unfold round2
  constructor
  · apply div_nonneg _ (by norm_num : (0:ℚ) ≤ 100)
    exact_mod_cast ha
  · rw [div_le_iff₀ (by norm_num : (0:ℚ) < 100)]
    have : (pyRoundInt (q * 100) : ℚ) ≤ 10000 := by exact_mod_cast hb
    linarith

theorem rankKeep_total (a b : ProcessedListing) : rankKeep a b ∨ rankKeep b a := by
  unfold rankKeep
  rcases lt_trichotomy b.OpportunityScore a.OpportunityScore with h | h | h
  · exact Or.inl (Or.inl h)
  · rcases le_total b.CapRate a.CapRate with hc | hc
    · exact Or.inl (Or.inr ⟨h.symm, hc⟩)
    · exact Or.inr (Or.inr ⟨h, hc⟩)
  · exact Or.inr (Or.inl h)

theorem rankKeep_trans {a b c : ProcessedListing}
    (h1 : rankKeep a b) (h2 : rankKeep b c) : rankKeep a c := by
  unfold rankKeep at h1 h2 ⊢
  rcases h1 with h1 | ⟨e1, c1⟩ <;> rcases h2 with h2 | ⟨e2, c2⟩
  · exact Or.inl (by linarith)
  · exact Or.inl (by rw [← e2]; exact h1)
  · exact Or.inl (by rw [e1]; exact h2)
  · exact Or.inr ⟨e1.trans e2, le_trans c2 c1⟩

theorem not_rankKeep_key_ne {x y : ProcessedListing} (h : ¬ rankKeep x y) :
    ¬ (y.OpportunityScore = x.OpportunityScore ∧ y.CapRate = x.CapRate) := by
  rintro ⟨e1, e2⟩
  exact h (Or.inr ⟨e1.symm, le_of_eq e2⟩)

theorem mem_rankInsert {x z : ProcessedListing} {l : List ProcessedListing} :
    z ∈ rankInsert x l ↔ z = x ∨ z ∈ l := by
  induction l with
  | nil => simp [rankInsert]
  | cons y ys ih =>
    by_cases h : rankKeep x y <;> simp [rankInsert, h, ih] <;> tauto

theorem rankInsert_perm (x : ProcessedListing) (l : List ProcessedListing) :
    (rankInsert x l).Perm (x :: l) := by
  induction l with
  | nil => simp [rankInsert]
  | cons y ys ih =>
    unfold rankInsert
    split_ifs with h
    · exact List.Perm.refl _
    · exact (ih.cons y).trans (List.Perm.swap x y ys)

theorem sortRanked_perm (l : List ProcessedListing) : (sortRanked l).Perm l := by
  induction l with
  | nil => simp [sortRanked]
  | cons x xs ih =>
    unfold sortRanked
    exact (rankInsert_perm x (sortRanked xs)).trans (ih.cons x)

theorem pairwise_rankInsert (x : ProcessedListing) {l : List ProcessedListing}
    (h : l.Pairwise rankKeep) : (rankInsert x l).Pairwise rankKeep := by
  induction l with
  | nil => simp [rankInsert]
  | cons y ys ih =>
    rw [List.pairwise_cons] at h
    obtain ⟨hy, hys⟩ := h
    unfold rankInsert
    split_ifs with hxy
    · refine List.Pairwise.cons ?_ (List.Pairwise.cons hy hys)
      intro z hz
      rcases List.mem_cons.mp hz with rfl | hz'
      · exact hxy
      · exact rankKeep_trans hxy (hy z hz')
    · refine List.Pairwise.cons ?_ (ih hys)
      intro z hz
      rcases mem_rankInsert.mp hz with h' | hz'
      · rw [h']
        exact (rankKeep_total x y).resolve_left hxy
      · exact hy z hz'

theorem sortRanked_pairwise (l : List ProcessedListing) :
    (sortRanked l).Pairwise rankKeep := by
  induction l with
  | nil => simp [sortRanked]
  | cons x xs ih =>
    unfold sortRanked
    exact pairwise_rankInsert x ih

theorem filter_rankInsert (x : ProcessedListing) (l : List ProcessedListing) (s c : ℚ) :
    (rankInsert x l).filter (fun r => decide (r.OpportunityScore = s ∧ r.CapRate = c)) =
      if x.OpportunityScore = s ∧ x.CapRate = c
      then x :: l.filter (fun r => decide (r.OpportunityScore = s ∧ r.CapRate = c))
      else l.filter (fun r => decide (r.OpportunityScore = s ∧ r.CapRate = c)) := by
  induction l with
  | nil =>
    simp only [rankInsert, List.filter_cons, List.filter_nil, decide_eq_true_eq]
  | cons y ys ih =>
    by_cases hxy : rankKeep x y
    · simp only [rankInsert, if_pos hxy, List.filter_cons, decide_eq_true_eq]
    · simp only [rankInsert, if_neg hxy, List.filter_cons, decide_eq_true_eq, ih]
      by_cases hx : x.OpportunityScore = s ∧ x.CapRate = c
      · have hy' : ¬ (y.OpportunityScore = s ∧ y.CapRate = c) := fun hy =>
          not_rankKeep_key_ne hxy ⟨hy.1.trans hx.1.symm, hy.2.trans hx.2.symm⟩
        rw [if_neg hy', if_pos hx, if_pos hx, if_neg hy']
      · rw [if_neg hx, if_neg hx]

theorem sortRanked_stable (l : List ProcessedListing) (s c : ℚ) :
    (sortRanked l).filter (fun r => decide (r.OpportunityScore = s ∧ r.CapRate = c)) =
      l.filter (fun r => decide (r.OpportunityScore = s ∧ r.CapRate = c)) := by
  induction l with
  | nil => simp [sortRanked]
  | cons x xs ih =>
    unfold sortRanked
    rw [filter_rankInsert, List.filter_cons]
    simp only [decide_eq_true_eq, ih]

/-! ## Claim theorems -/

/-- C1: the spec's end-to-end example claims the pipeline maps the listing at
(41.933, −87.712) with the retiring-owner description, cash flow $150,000 and
price $750,000 to (Logan Square, 1.0), the real-estate / motivation /
old-equipment signals true, score 100.00 and cap rate 20.00.  The code cannot
produce this: the geocoding call in `run_acquisition_engine` supplies two
arguments to a three-parameter function, so the pipeline raises `TypeError`
on this very input — even though each component, run on the intended
arguments, produces exactly the claimed values. -/
theorem C1_end_to_end_pipeline_code_bug :
    run_acquisition_engine [example_listing] = .error "TypeError" ∧
    (∀ location_text : ℚ,
      automated_geocoding location_text example_listing.Lat example_listing.Long =
        { Neighborhood := "Logan Square", MatchScore := 1.0 }) ∧
    automated_nlp_analysis example_listing.Description =
      { RealEstateIncluded := true, SellerMotivation := true
      , OldEquipment := true, HighCapacity := false } ∧
    calculate_opportunity_score example_enriched = 100 ∧
    financial_caprate example_listing.Price example_listing.CashFlow = .ok 20 := by
  refine ⟨?_, ?_, ?_, ?_, ?_⟩
  · simp [run_acquisition_engine, process_all, process_listing, callGeocoding,
      geocoding_call_args, automated_geocoding_params, Except.bind, Except.map]
  · intro lt
    rw [automated_geocoding]
    norm_num [example_listing]
  · decide
  · rw [calculate_opportunity_score]
    norm_num [example_enriched, TARGET_NEIGHBORHOODS, WEIGHTS, round2, pyRoundInt]
  · have h1 : pyFloat (stripMoney example_listing.CashFlow) = some 150000 := by
      rw [pyFloat, show pyFloatParse (stripMoney example_listing.CashFlow) =
        some { neg := false, mantDigits := 150000, fracLen := 0, exp := 0 } from by decide]
      norm_num [partsValue]
    have h2 : pyFloat (stripMoney example_listing.Price) = some 750000 := by
      rw [pyFloat, show pyFloatParse (stripMoney example_listing.Price) =
        some { neg := false, mantDigits := 750000, fracLen := 0, exp := 0 } from by decide]
      norm_num [partsValue]
    rw [financial_caprate, h1, h2]
    norm_num [round2, pyRoundInt]

/-- C2: `run_acquisition_engine` invokes `automated_geocoding` with only two
positional arguments (the listing's Lat and Long) although the function
declares three required positional parameters, so on every non-empty input the
pipeline raises `TypeError` before producing any scored listing. -/
theorem C2_geocoding_call_arity_type_error :
    ∀ data : List RawListing, data ≠ [] →
      automated_geocoding_params.length = 3 ∧
      (∀ l ∈ data, (geocoding_call_args l).length = 2) ∧
      run_acquisition_engine data = .error "TypeError" := by
  intro data hne
  refine ⟨rfl, fun l _ => rfl, ?_⟩
  cases data with
  | nil => exact absurd rfl hne
  | cons l rest =>
    simp [run_acquisition_engine, process_all, process_listing, callGeocoding,
      geocoding_call_args, automated_geocoding_params, Except.bind, Except.map]

theorem C2_geocoding_call_arity_type_error_witness :
    ([example_listing] : List RawListing) ≠ [] ∧
    (automated_geocoding_params.length = 3 ∧
      (∀ l ∈ [example_listing], (geocoding_call_args l).length = 2) ∧
      run_acquisition_engine [example_listing] = .error "TypeError") :=
  ⟨by simp, C2_geocoding_call_arity_type_error [example_listing] (by simp)⟩

/-- C3 (amended): in the per-listing financial step, a listing whose price or
cash-flow text is malformed (non-numeric after stripping `$` and `,`) gets cap
rate 0.0 through the `except ValueError` handler and is appended to the
processed set with every other field intact.  (The original claim also covered
a parsed price of exactly zero, but that raises an uncaught
`ZeroDivisionError` — see the counterexample.) -/
theorem C3_malformed_text_caprate_zero :
    ∀ (listing : RawListing) (geo : GeoData),
      pyFloat (stripMoney listing.CashFlow) = none ∨
        pyFloat (stripMoney listing.Price) = none →
      enrich listing geo = .ok
        { Title := listing.Title
        , Location := listing.Location
        , Price := listing.Price
        , CashFlow := listing.CashFlow
        , Description := listing.Description
        , Lat := listing.Lat
        , Long := listing.Long
        , Neighborhood := geo.Neighborhood
        , MatchScore := geo.MatchScore
        , RealEstateIncluded := (automated_nlp_analysis listing.Description).RealEstateIncluded
        , SellerMotivation := (automated_nlp_analysis listing.Description).SellerMotivation
        , OldEquipment := (automated_nlp_analysis listing.Description).OldEquipment
        , HighCapacity := (automated_nlp_analysis listing.Description).HighCapacity
        , OpportunityScore := calculate_opportunity_score
            { Neighborhood := geo.Neighborhood
            , MatchScore := geo.MatchScore
            , RealEstateIncluded := (automated_nlp_analysis listing.Description).RealEstateIncluded
            , SellerMotivation := (automated_nlp_analysis listing.Description).SellerMotivation
            , OldEquipment := (automated_nlp_analysis listing.Description).OldEquipment
            , HighCapacity := (automated_nlp_analysis listing.Description).HighCapacity }
        , CapRate := 0 } := by
  intro listing geo h
  rcases h with h | h
  · simp [enrich, financial_caprate, h, Except.map]
    norm_num
  · rcases hcf : pyFloat (stripMoney listing.CashFlow) with _ | cf
    · simp [enrich, financial_caprate, hcf, Except.map]
      norm_num
    · simp [enrich, financial_caprate, hcf, h, Except.map]
      norm_num

theorem C3_malformed_text_caprate_zero_witness :
    (pyFloat (stripMoney na_listing.CashFlow) = none ∨
      pyFloat (stripMoney na_listing.Price) = none) ∧
    enrich na_listing outside_geo = .ok
      { Title := na_listing.Title
      , Location := na_listing.Location
      , Price := na_listing.Price
      , CashFlow := na_listing.CashFlow
      , Description := na_listing.Description
      , Lat := na_listing.Lat
      , Long := na_listing.Long
      , Neighborhood := outside_geo.Neighborhood
      , MatchScore := outside_geo.MatchScore
      , RealEstateIncluded := (automated_nlp_analysis na_listing.Description).RealEstateIncluded
      , SellerMotivation := (automated_nlp_analysis na_listing.Description).SellerMotivation
      , OldEquipment := (automated_nlp_analysis na_listing.Description).OldEquipment
      , HighCapacity := (automated_nlp_analysis na_listing.Description).HighCapacity
      , OpportunityScore := calculate_opportunity_score
          { Neighborhood := outside_geo.Neighborhood
          , MatchScore := outside_geo.MatchScore
          , RealEstateIncluded := (automated_nlp_analysis na_listing.Description).RealEstateIncluded
          , SellerMotivation := (automated_nlp_analysis na_listing.Description).SellerMotivation
          , OldEquipment := (automated_nlp_analysis na_listing.Description).OldEquipment
          , HighCapacity := (automated_nlp_analysis na_listing.Description).HighCapacity }
      , CapRate := 0 } := by
  have h : pyFloat (stripMoney na_listing.Price) = none := by
    rw [pyFloat, show pyFloatParse (stripMoney na_listing.Price) = none from by decide]
    rfl
  exact ⟨Or.inr h, C3_malformed_text_caprate_zero na_listing outside_geo (Or.inr h)⟩

/-- C3 counterexample: a listing whose price text parses to exactly zero is
not given cap rate 0.0 — the division raises `ZeroDivisionError`, which the
`except ValueError` clause does not catch, so the financial step errors
instead of admitting the listing. -/
theorem C3_zero_price_uncaught_division :
    pyFloat (stripMoney zero_price_listing.Price) = some 0 ∧
    enrich zero_price_listing outside_geo = .error "ZeroDivisionError" := by
  have hp : pyFloat (stripMoney zero_price_listing.Price) = some 0 := by
    rw [pyFloat, show pyFloatParse (stripMoney zero_price_listing.Price) =
      some { neg := false, mantDigits := 0, fracLen := 0, exp := 0 } from by decide]
    norm_num [partsValue]
  have hcf : pyFloat (stripMoney zero_price_listing.CashFlow) = some 150000 := by
    rw [pyFloat, show pyFloatParse (stripMoney zero_price_listing.CashFlow) =
      some { neg := false, mantDigits := 150000, fracLen := 0, exp := 0 } from by decide]
    norm_num [partsValue]
  refine ⟨hp, ?_⟩
  simp [enrich, financial_caprate, hp, hcf, Except.map]

/-- C4: the classifier body is exactly the spec's ordered first-match rule
evaluation over inclusive bounding boxes with default (Outside Target, 0.0);
the point (41.92, −87.73) lies in both the first and the second rule's box and
is assigned to the first rule (Logan Square). -/
theorem C4_classifier_first_match_refinement :
    (∀ location_text lat long : ℚ,
      automated_geocoding location_text lat long = spec_classify lat long) ∧
    ruleContains
      { latMin := 41.92, latMax := 41.94, longMin := -87.73, longMax := -87.70
      , Neighborhood := "Logan Square", MatchScore := 1.0 } 41.92 (-87.73) = true ∧
    ruleContains
      { latMin := 41.92, latMax := 41.93, longMin := -87.74, longMax := -87.72
      , Neighborhood := "Avondale", MatchScore := 0.9 } 41.92 (-87.73) = true ∧
    (∀ location_text : ℚ,
      automated_geocoding location_text 41.92 (-87.73) =
        { Neighborhood := "Logan Square", MatchScore := 1.0 }) ∧
    (∀ location_text : ℚ,
      automated_geocoding location_text 50 0 =
        { Neighborhood := "Outside Target", MatchScore := 0.0 }) := by
  refine ⟨?_, ?_, ?_, ?_, ?_⟩
  · intro lt lat long
    rw [automated_geocoding, spec_classify]
    simp only [spec_geo_rules]
    by_cases h1 : 41.92 ≤ lat ∧ lat ≤ 41.94 ∧ -87.73 ≤ long ∧ long ≤ -87.70
    · rw [if_pos h1, List.find?_cons_of_pos _ (by simpa [ruleContains] using h1)]
    · rw [if_neg h1, List.find?_cons_of_neg _ (by simpa [ruleContains] using h1)]
      by_cases h2 : 41.92 ≤ lat ∧ lat ≤ 41.93 ∧ -87.74 ≤ long ∧ long ≤ -87.72
      · rw [if_pos h2, List.find?_cons_of_pos _ (by simpa [ruleContains] using h2)]
      · rw [if_neg h2, List.find?_cons_of_neg _ (by simpa [ruleContains] using h2)]
        by_cases h3 : 41.90 ≤ lat ∧ lat ≤ 41.92 ∧ -87.75 ≤ long ∧ long ≤ -87.73
        · rw [if_pos h3, List.find?_cons_of_pos _ (by simpa [ruleContains] using h3)]
        · rw [if_neg h3, List.find?_cons_of_neg _ (by simpa [ruleContains] using h3)]
          rfl
  · simp only [ruleContains, decide_eq_true_eq]
    norm_num
  · simp only [ruleContains, decide_eq_true_eq]
    norm_num
  · intro lt
    rw [automated_geocoding]
    norm_num
  · intro lt
    rw [automated_geocoding]
    norm_num

/-- C5: with the default weights and a classifier match score in [0, 1], the
opportunity score lies in [0, 100]. -/
theorem C5_score_in_range :
    ∀ e : EnrichedListing, 0 ≤ e.MatchScore → e.MatchScore ≤ 1 →
      0 ≤ calculate_opportunity_score e ∧ calculate_opportunity_score e ≤ 100 := by
  intro e h0 h1
  simp only [calculate_opportunity_score, WEIGHTS]
  refine round2_bound_0_100 _ ?_ ?_
  · split_ifs <;> linarith
  · split_ifs <;> linarith

theorem C5_score_in_range_witness :
    0 ≤ example_enriched.MatchScore ∧ example_enriched.MatchScore ≤ 1 ∧
      (0 ≤ calculate_opportunity_score example_enriched ∧
        calculate_opportunity_score example_enriched ≤ 100) :=
  ⟨zero_le_one, le_refl 1, C5_score_in_range example_enriched zero_le_one (le_refl 1)⟩

/-- C6: the capacity weight is added exactly once when equipment-is-old or
equipment-is-high-capacity (or both) holds and zero times when both fail:
both signals true gives the same score as exactly one true, and the
contribution is a single `WEIGHTS.HighCapacity` on top of the other three
terms. -/
theorem C6_capacity_weight_single_contribution :
    ∀ e : EnrichedListing,
      calculate_opportunity_score { e with OldEquipment := true, HighCapacity := true } =
        calculate_opportunity_score { e with OldEquipment := true, HighCapacity := false } ∧
      calculate_opportunity_score { e with OldEquipment := true, HighCapacity := true } =
        calculate_opportunity_score { e with OldEquipment := false, HighCapacity := true } ∧
      calculate_opportunity_score { e with OldEquipment := true, HighCapacity := true } =
        round2 (score_before_capacity e + WEIGHTS.HighCapacity) ∧
      calculate_opportunity_score { e with OldEquipment := false, HighCapacity := false } =
        round2 (score_before_capacity e) := by
  intro e
  refine ⟨?_, ?_, ?_, ?_⟩ <;>
    simp only [calculate_opportunity_score, score_before_capacity, Bool.or_true,
      Bool.true_or, Bool.or_false, Bool.false_or, Bool.false_eq_true,
      eq_self_iff_true, if_true, if_false] <;>
    split_ifs <;>
    first
      | rfl
      | (congr 1; ring)

/-- C7: the location term contributes `locationWeight × matchScore` exactly
when the classified neighborhood is in the enumerated target set, and zero
otherwise — even when the match score is positive. -/
theorem C7_location_term_target_gate :
    ∀ e : EnrichedListing,
      (e.Neighborhood ∉ TARGET_NEIGHBORHOODS →
        calculate_opportunity_score e = round2 (rest_terms e)) ∧
      (e.Neighborhood ∈ TARGET_NEIGHBORHOODS →
        calculate_opportunity_score e =
          round2 (WEIGHTS.LocationMatch * e.MatchScore + rest_terms e)) := by
  intro e
  constructor
  · intro h
    simp only [calculate_opportunity_score, rest_terms, if_neg h]
    split_ifs <;>
      first
        | rfl
        | (congr 1; ring)
  · intro h
    simp only [calculate_opportunity_score, rest_terms, if_pos h]
    split_ifs <;>
      first
        | rfl
        | (congr 1; ring)

theorem C7_location_term_target_gate_witness :
    (outside_enriched.Neighborhood ∉ TARGET_NEIGHBORHOODS ∧
      calculate_opportunity_score outside_enriched = round2 (rest_terms outside_enriched)) ∧
    (target_enriched.Neighborhood ∈ TARGET_NEIGHBORHOODS ∧
      calculate_opportunity_score target_enriched =
        round2 (WEIGHTS.LocationMatch * target_enriched.MatchScore + rest_terms target_enriched)) :=
  ⟨⟨by decide, (C7_location_term_target_gate outside_enriched).1 (by decide)⟩,
   ⟨by decide, (C7_location_term_target_gate target_enriched).2 (by decide)⟩⟩

/-- C8: the Ranking Engine's sort orders rows by opportunity score descending
then cap rate descending (`rankKeep` pairwise), is a permutation of its input,
and is stable — for every (score, cap rate) key the rows with that key appear
in the same order as in the input. -/
theorem C8_sort_desc_stable :
    ∀ rows : List ProcessedListing,
      (sortRanked rows).Pairwise rankKeep ∧
      (sortRanked rows).Perm rows ∧
      ∀ s c : ℚ,
        (sortRanked rows).filter (fun r => decide (r.OpportunityScore = s ∧ r.CapRate = c)) =
          rows.filter (fun r => decide (r.OpportunityScore = s ∧ r.CapRate = c)) :=
  fun rows =>
    ⟨sortRanked_pairwise rows, sortRanked_perm rows, fun s c => sortRanked_stable rows s c⟩

/-- C9: the neighborhood-membership filter and the minimum-opportunity-score
filter commute on every row set and every pair of criteria. -/
theorem C9_filters_commute :
    ∀ (rows : List ProcessedListing) (hoods : List String) (minScore : ℚ),
      filter_by_min_score minScore (filter_by_hoods hoods rows) =
        filter_by_hoods hoods (filter_by_min_score minScore rows) := by
  intro rows hoods minScore
  unfold filter_by_hoods filter_by_min_score
  rw [List.filter_filter, List.filter_filter]
  congr 1
  funext r
  rw [Bool.and_comm]

/-- C10: each of the four signals is true iff the lower-cased description
contains some phrase of that signal's pattern group; the groups are
independent (a description with phrases from all four groups sets all four
true, one with none sets all four false) and there is no negation handling
("not real estate included" still sets the real-estate signal). -/
theorem C10_nlp_pattern_groups :
    (∀ d : String,
      (automated_nlp_analysis d).RealEstateIncluded =
          real_estate_patterns.any (fun p => strContains (strLower d) p) ∧
      (automated_nlp_analysis d).SellerMotivation =
          motivation_patterns.any (fun p => strContains (strLower d) p) ∧
      (automated_nlp_analysis d).OldEquipment =
          old_equipment_patterns.any (fun p => strContains (strLower d) p) ∧
      (automated_nlp_analysis d).HighCapacity =
          high_capacity_patterns.any (fun p => strContains (strLower d) p)) ∧
    automated_nlp_analysis all_groups_description =
      { RealEstateIncluded := true, SellerMotivation := true
      , OldEquipment := true, HighCapacity := true } ∧
    automated_nlp_analysis no_groups_description =
      { RealEstateIncluded := false, SellerMotivation := false
      , OldEquipment := false, HighCapacity := false } ∧
    (automated_nlp_analysis "not real estate included").RealEstateIncluded = true := by
  refine ⟨?_, by decide, by decide, by decide⟩
  intro d
  refine ⟨?_, ?_, ?_, ?_⟩ <;>
    simp [automated_nlp_analysis, real_estate_patterns, motivation_patterns,
      old_equipment_patterns, high_capacity_patterns, List.any_cons, List.any_nil,
      Bool.or_assoc]

end Laundromat
